import Mathlib

/-!
Verification of the Bubble-Trace requirements-traceability graph engine.

The development shallowly embeds the engine code:
* the entity data model (src/types/index.ts);
* the filter pipeline and topology builder of the D3 front-end
  (processData in src/components/D3BubbleMap.tsx);
* the legacy canvas builder (generateBubbles in src/components/BubbleMap.tsx);
* the camera model and wheel zoom (screenToWorld, worldToScreen, handleWheel
  in src/components/BubbleMap.tsx);
* the cascading filter toggle (handleRequirementToggle in FilterPanel).

JavaScript numbers are modeled as exact rationals.  Calls to Math.random are
modeled by an explicit stream rand : Nat -> Rat giving the value of the i-th
call, numbered in source order.  Math.cos and Math.sin are only ever applied
to rational multiples of pi; they are modeled by functions of the coefficient
of pi.  Mutable loop counters (childIndex, testIndex, groupIndex) become
explicitly threaded arguments of structural recursions.
-/

/-- Test status union type: status is passed, failed or pending. -/
inductive Status where
  | passed
  | failed
  | pending
deriving DecidableEq, Repr

/-- ParentRequirement entity (types/index.ts). -/
structure ParentRequirement where
  id : Int
  name : String
  description : Option String := none
  created_at : String := ""
deriving DecidableEq, Repr

/-- ChildRequirement entity (types/index.ts). -/
structure ChildRequirement where
  id : Int
  parent_requirement_id : Int
  name : String
  description : Option String := none
  created_at : String := ""
deriving DecidableEq, Repr

/-- TestRun entity (types/index.ts). -/
structure TestRun where
  id : Int
  child_requirement_id : Int
  name : String
  status : Status
  description : Option String := none
  created_at : String := ""
deriving DecidableEq, Repr

/-- Multi-select filter state of the D3 front-end:
parentFilter and childFilter are id lists, statusFilter a status list. -/
structure Filters where
  parentFilter : List Int
  childFilter : List Int
  statusFilter : List Status
deriving DecidableEq, Repr

/-- Which kind of requirement a FilterPanel checkbox toggles. -/
inductive ReqType where
  | parent
  | child
deriving DecidableEq, Repr

/-- handleRequirementToggle from the FilterPanel component.  Toggling a
parent on adds it and all its children whose ids are not yet selected;
toggling it off removes it and all ids of its children.  Toggling a child
flips that single child id. -/
def handleRequirementToggle (childRequirements : List ChildRequirement)
    (filters : Filters) (id : Int) (type : ReqType) : Filters :=
  match type with
  | .parent =>
    let parentId := id
    let isCurrentlySelected := filters.parentFilter.contains parentId
    if isCurrentlySelected then
      let childrenIds :=
        (childRequirements.filter fun c => c.parent_requirement_id == parentId).map
          fun c => c.id
      { parentFilter := filters.parentFilter.filter fun p => p != parentId
        childFilter := filters.childFilter.filter fun c => !childrenIds.contains c
        statusFilter := filters.statusFilter }
    else
      let childrenIds :=
        ((childRequirements.filter fun c => c.parent_requirement_id == parentId).map
          fun c => c.id).filter fun c => !filters.childFilter.contains c
      { parentFilter := filters.parentFilter ++ [parentId]
        childFilter := filters.childFilter ++ childrenIds
        statusFilter := filters.statusFilter }
  | .child =>
    let childId := id
    let isCurrentlySelected := filters.childFilter.contains childId
    if isCurrentlySelected then
      { filters with childFilter := filters.childFilter.filter fun c => c != childId }
    else
      { filters with childFilter := filters.childFilter ++ [childId] }

/-- Node tier discriminant. -/
inductive NodeType where
  | parent
  | child
  | test
deriving DecidableEq, Repr

/-- The data payload of a node: the source entity it was built from. -/
inductive EntityData where
  | parent (p : ParentRequirement)
  | child (c : ChildRequirement)
  | test (t : TestRun)
deriving DecidableEq, Repr

/-- D3Node record (D3BubbleMap.tsx).  fx and fy model the d3 fixed-position
fields: some v means the coordinate is pinned to v, none means unpinned. -/
structure D3Node where
  id : String
  type : NodeType
  name : String
  radius : Rat
  color : String
  data : EntityData
  group : Nat
  x : Rat
  y : Rat
  fx : Option Rat := none
  fy : Option Rat := none
deriving DecidableEq, Repr

/-- D3Link record (D3BubbleMap.tsx); source and target are node id strings. -/
structure D3Link where
  source : String
  target : String
  color : String
deriving DecidableEq, Repr

/-- The Teenage Engineering color palette constants of D3BubbleMap.tsx. -/
structure TEColors where
  base : String
  dark : String
  accent1 : String
  accent2 : String
  accent3 : String
  accent4 : String
  accent5 : String
  gray : String
deriving DecidableEq, Repr

/-- The teColors literal of processData. -/
def teColors : TEColors :=
  { base := "#F5F5F5"
    dark := "#1A1A1A"
    accent1 := "#FF6B35"
    accent2 := "#00D4AA"
    accent3 := "#FFE066"
    accent4 := "#FF4757"
    accent5 := "#7C4DFF"
    gray := "#8E8E93" }

/-- First filtering stage of processData: restrict parents by parentFilter;
an empty parentFilter list imposes no restriction. -/
def filteredParents (parentRequirements : List ParentRequirement)
    (filters : Filters) : List ParentRequirement :=
  parentRequirements.filter fun p =>
    filters.parentFilter.length == 0 || filters.parentFilter.contains p.id

/-- Second filtering stage of processData: a child survives when it passes
childFilter (empty list means no restriction) and its parent survived. -/
def filteredChildren (parentRequirements : List ParentRequirement)
    (childRequirements : List ChildRequirement) (filters : Filters) :
    List ChildRequirement :=
  childRequirements.filter fun c =>
    (filters.childFilter.length == 0 || filters.childFilter.contains c.id) &&
    (filteredParents parentRequirements filters).any fun p =>
      p.id == c.parent_requirement_id

/-- Third filtering stage of processData: a test survives when it passes
statusFilter (empty list means no restriction) and its child survived. -/
def filteredTests (parentRequirements : List ParentRequirement)
    (childRequirements : List ChildRequirement) (testRuns : List TestRun)
    (filters : Filters) : List TestRun :=
  testRuns.filter fun t =>
    (filters.statusFilter.length == 0 || filters.statusFilter.contains t.status) &&
    (filteredChildren parentRequirements childRequirements filters).any fun c =>
      c.id == t.child_requirement_id

/-- A child together with its surviving tests, as grouped by processData. -/
structure ChildGroup where
  child : ChildRequirement
  tests : List TestRun
deriving DecidableEq, Repr

/-- A surviving parent with its grouped children (parentChildTestGroups). -/
structure PCTGroup where
  parent : ParentRequirement
  children : List ChildGroup
deriving DecidableEq, Repr

/-- The body of the inner map of parentChildTestGroups: a child together
with its filtered tests. -/
def childGroupOf (ft : List TestRun) (child : ChildRequirement) : ChildGroup :=
  { child := child
    tests := ft.filter fun t => t.child_requirement_id == child.id }

/-- The body of the outer map of parentChildTestGroups: a parent with the
filtered children belonging to it. -/
def groupOf (fc : List ChildRequirement) (ft : List TestRun)
    (parent : ParentRequirement) : PCTGroup :=
  { parent := parent
    children :=
      (fc.filter fun c => c.parent_requirement_id == parent.id).map (childGroupOf ft) }

/-- The hierarchical structure built by processData from the filtered
arrays: one group per filtered parent, holding its filtered children, each
with its filtered tests. -/
def parentChildTestGroups (fp : List ParentRequirement)
    (fc : List ChildRequirement) (ft : List TestRun) : List PCTGroup :=
  fp.map (groupOf fc ft)

/-- testRadius constant of processData. -/
def testRadius : Rat := 18

/-- minTestGap constant of processData: minimum gap between test nodes. -/
def minTestGap : Rat := 10

/-- testSpacing of processData: the larger of the minimum non-overlapping
spacing and an even distribution of the filtered tests across the height. -/
def testSpacing (height : Rat) (testCount : Nat) : Rat :=
  max (testRadius * 2 + minTestGap) (height / (testCount + 1))

/-- childSpacing of processData. -/
def childSpacing (height : Rat) (childCount : Nat) : Rat :=
  max 80 (height / (childCount + 1))

/-- Test node color by status (processData). -/
def testColor (t : TestRun) : String :=
  if t.status = .passed then teColors.accent2
  else if t.status = .failed then teColors.accent4
  else teColors.accent3

/-- The test node pushed by processData for the test at global index
testIndex: placed at 85 percent of the width, vertical slot
(testIndex + 1) * testSpacing, with both coordinates pinned (fx, fy). -/
def mkTestNode (width tSpacing : Rat) (testIndex : Nat) (t : TestRun) : D3Node :=
  let testY : Rat := ((testIndex : Rat) + 1) * tSpacing
  { id := "test-" ++ toString t.id
    type := .test
    name := t.name
    radius := 18
    color := testColor t
    data := .test t
    group := 3
    x := width * 0.85
    y := testY
    fx := some (width * 0.85)
    fy := some testY }

/-- The child node pushed by processData: 45 percent of the width, unpinned. -/
def mkChildNode (width cy : Rat) (c : ChildRequirement) : D3Node :=
  { id := "child-" ++ toString c.id
    type := .child
    name := c.name
    radius := 30
    color := teColors.accent5
    data := .child c
    group := 2
    x := width * 0.45
    y := cy }

/-- The parent node pushed by processData: 12 percent of the width, unpinned. -/
def mkParentNode (width py : Rat) (p : ParentRequirement) : D3Node :=
  { id := "parent-" ++ toString p.id
    type := .parent
    name := p.name
    radius := 45
    color := teColors.accent1
    data := .parent p
    group := 1
    x := width * 0.12
    y := py }

/-- childY of processData: center of the vertical span of the tests of this
child, or an even slot among filtered children when it has no tests. -/
def childY (tSpacing cSpacing : Rat) (childIndex testIndex : Nat)
    (cg : ChildGroup) : Rat :=
  let childTestCount := cg.tests.length
  if 0 < childTestCount then
    let firstChildTestIndex : Int := testIndex
    let lastChildTestIndex : Int := testIndex + childTestCount - 1
    (((firstChildTestIndex + lastChildTestIndex + 2 : Int) : Rat) / 2) * tSpacing
  else ((childIndex : Rat) + 1) * cSpacing

/-- groupTestCount of processData: reduce over the children summing test
list lengths. -/
def groupTestCount (g : PCTGroup) : Nat :=
  g.children.foldl (fun sum c => sum + c.tests.length) 0

/-- parentY of processData: center of the vertical span of the descendant
tests of the group, or an even slot among filtered parents when none. -/
def parentY (height tSpacing : Rat) (numParents : Nat)
    (groupIndex testIndex : Nat) (g : PCTGroup) : Rat :=
  let cnt := groupTestCount g
  if 0 < cnt then
    let firstTestIndex : Int := testIndex
    let lastTestIndex : Int := testIndex + cnt - 1
    (((firstTestIndex + lastTestIndex + 2 : Int) : Rat) / 2) * tSpacing
  else ((groupIndex : Rat) + 1) * (height / ((numParents : Rat) + 1))

/-- The inner forEach of processData over the tests of one child group:
pushes one test node per test, incrementing the global testIndex. -/
def buildTestNodes (width tSpacing : Rat) (testIndex : Nat) :
    List TestRun → List D3Node
  | [] => []
  | t :: rest =>
      mkTestNode width tSpacing testIndex t ::
        buildTestNodes width tSpacing (testIndex + 1) rest

/-- The forEach of processData over the child groups of one parent group:
for each child, push its test nodes then the child node, threading the
global childIndex and testIndex counters. -/
def buildChildGroups (width tSpacing cSpacing : Rat)
    (childIndex testIndex : Nat) : List ChildGroup → List D3Node
  | [] => []
  | cg :: rest =>
      buildTestNodes width tSpacing testIndex cg.tests
        ++ [mkChildNode width (childY tSpacing cSpacing childIndex testIndex cg) cg.child]
        ++ buildChildGroups width tSpacing cSpacing (childIndex + 1)
            (testIndex + cg.tests.length) rest

/-- The outer forEach of processData over parentChildTestGroups: for each
group, push the nodes of its children then the parent node. -/
def buildGroups (width height tSpacing cSpacing : Rat) (numParents : Nat)
    (groupIndex childIndex testIndex : Nat) : List PCTGroup → List D3Node
  | [] => []
  | g :: rest =>
      buildChildGroups width tSpacing cSpacing childIndex testIndex g.children
        ++ [mkParentNode width
              (parentY height tSpacing numParents groupIndex testIndex g) g.parent]
        ++ buildGroups width height tSpacing cSpacing numParents (groupIndex + 1)
            (childIndex + g.children.length) (testIndex + groupTestCount g) rest

/-- Result of processData: the node set and the link set. -/
structure ProcessResult where
  nodes : List D3Node
  links : List D3Link
deriving DecidableEq, Repr

/-- processData of D3BubbleMap.tsx: filter the three entity arrays top-down,
group them hierarchically, lay the nodes out tier by tier, and emit one
parent-to-child link per filtered child and one child-to-test link per
filtered test. -/
def processData (parentRequirements : List ParentRequirement)
    (childRequirements : List ChildRequirement) (testRuns : List TestRun)
    (filters : Filters) (width height : Rat) : ProcessResult :=
  let fp := filteredParents parentRequirements filters
  let fc := filteredChildren parentRequirements childRequirements filters
  let ft := filteredTests parentRequirements childRequirements testRuns filters
  let groups := parentChildTestGroups fp fc ft
  let tSpacing := testSpacing height ft.length
  let cSpacing := childSpacing height fc.length
  let nodes := buildGroups width height tSpacing cSpacing fp.length 0 0 0 groups
  let parentChildLinks : List D3Link := fc.map fun c =>
    { source := "parent-" ++ toString c.parent_requirement_id
      target := "child-" ++ toString c.id
      color := teColors.gray }
  let childTestLinks : List D3Link := ft.map fun t =>
    { source := "child-" ++ toString t.child_requirement_id
      target := "test-" ++ toString t.id
      color := teColors.gray }
  { nodes := nodes, links := parentChildLinks ++ childTestLinks }

/-- A run of the D3 topology build in an ambient random state rand.  The
body of processData contains no Math.random call, so the ambient stream is
never consumed; it is still passed here so that a run with its ambient
randomness can be stated. -/
def processDataRun (rand : Nat → Rat) (parentRequirements : List ParentRequirement)
    (childRequirements : List ChildRequirement) (testRuns : List TestRun)
    (filters : Filters) (width height : Rat) : ProcessResult :=
  processData parentRequirements childRequirements testRuns filters width height

/-- Filter state of the legacy canvas front-end (BubbleMap.tsx): a parent
name substring and a single status string, empty string meaning falsy. -/
structure BMFilters where
  parentFilter : String
  statusFilter : String
deriving DecidableEq, Repr

/-- BubbleNode record (types/index.ts); the physics fields vx, vy, targetX,
targetY and parentId are optional and set by generateBubbles. -/
structure BubbleNode where
  id : String
  type : NodeType
  name : String
  x : Rat
  y : Rat
  radius : Rat
  color : String
  data : EntityData
  vx : Option Rat := none
  vy : Option Rat := none
  targetX : Option Rat := none
  targetY : Option Rat := none
  parentId : Option String := none
deriving DecidableEq, Repr

/-- TraceLine record (types/index.ts). -/
structure TraceLine where
  lineFrom : String
  lineTo : String
  color : String
deriving DecidableEq, Repr

/-- The string of a status value as stored in the TypeScript union type. -/
def statusStr : Status → String
  | .passed => "passed"
  | .failed => "failed"
  | .pending => "pending"

/-- Model of String.prototype.includes composed with toLowerCase on both
sides, as used by the parent name filter of generateBubbles. -/
def strIncludes (s sub : String) : Bool :=
  s.toLower.toList.tails.any fun t => sub.toLower.toList.isPrefixOf t

/-- canvasWidth constant of BubbleMap.tsx. -/
def canvasWidth : Rat := 800

/-- canvasHeight constant of BubbleMap.tsx. -/
def canvasHeight : Rat := 600

/-- The parent loop of generateBubbles: pushes one bubble per filtered
parent at deterministic grid coordinates, with random initial velocity.
The Math.random stream counter k is threaded explicitly (two calls per
parent, vx then vy); index is the forEach index. -/
def genParentNodes (rand : Nat → Rat) (k index : Nat) :
    List ParentRequirement → List BubbleNode × Nat
  | [] => ([], k)
  | p :: rest =>
      let x : Rat := 200 + (((index * 300) % 400 : Nat) : Rat)
      let y : Rat := 150 + ((index / 2 : Nat) : Rat) * 200
      let node : BubbleNode :=
        { id := "parent-" ++ toString p.id
          type := .parent
          name := p.name
          x := x
          y := y
          radius := 40
          color := "#3b82f6"
          data := .parent p
          vx := some ((rand k - 0.5) * 0.5)
          vy := some ((rand (k + 1) - 0.5) * 0.5)
          targetX := some x
          targetY := some y }
      let (restNodes, kEnd) := genParentNodes rand (k + 2) (index + 1) rest
      (node :: restNodes, kEnd)

/-- The child loop of generateBubbles.  cosPi and sinPi model Math.cos and
Math.sin applied to an angle written as a rational coefficient of pi; the
source angle (index mod 6) * (2 pi / 6) has coefficient (index mod 6) * 2/6.
Each included child consumes three Math.random values (distance, vx, vy);
a child whose parent bubble is not found is skipped and consumes none. -/
def genChildNodes (cosPi sinPi : Rat → Rat) (rand : Nat → Rat)
    (nodes : List BubbleNode) (lines : List TraceLine) (k index : Nat) :
    List ChildRequirement → List BubbleNode × List TraceLine × Nat
  | [] => (nodes, lines, k)
  | c :: rest =>
      match nodes.find? fun n =>
          n.id == "parent-" ++ toString c.parent_requirement_id with
      | some parentNode =>
          let angle : Rat := ((index % 6 : Nat) : Rat) * (2 / 6)
          let distance : Rat := 120 + rand k * 40
          let targetX := parentNode.x + cosPi angle * distance
          let targetY := parentNode.y + sinPi angle * distance
          let node : BubbleNode :=
            { id := "child-" ++ toString c.id
              type := .child
              name := c.name
              x := targetX
              y := targetY
              radius := 25
              color := "#10b981"
              data := .child c
              vx := some ((rand (k + 1) - 0.5) * 0.3)
              vy := some ((rand (k + 2) - 0.5) * 0.3)
              targetX := some targetX
              targetY := some targetY
              parentId := some parentNode.id }
          let line : TraceLine :=
            { lineFrom := "parent-" ++ toString c.parent_requirement_id
              lineTo := "child-" ++ toString c.id
              color := "#6b7280" }
          genChildNodes cosPi sinPi rand (nodes ++ [node]) (lines ++ [line])
            (k + 3) (index + 1) rest
      | none => genChildNodes cosPi sinPi rand nodes lines k (index + 1) rest

/-- Test bubble color by status (generateBubbles). -/
def bmTestColor (t : TestRun) : String :=
  if t.status = .passed then "#22c55e"
  else if t.status = .failed then "#ef4444"
  else "#f59e0b"

/-- The test loop of generateBubbles; the source angle
(index mod 5) * (2 pi / 5) has pi-coefficient (index mod 5) * 2/5.  Each
included test consumes three Math.random values (distance, vx, vy). -/
def genTestNodes (cosPi sinPi : Rat → Rat) (rand : Nat → Rat)
    (nodes : List BubbleNode) (lines : List TraceLine) (k index : Nat) :
    List TestRun → List BubbleNode × List TraceLine × Nat
  | [] => (nodes, lines, k)
  | t :: rest =>
      match nodes.find? fun n =>
          n.id == "child-" ++ toString t.child_requirement_id with
      | some childNode =>
          let angle : Rat := ((index % 5 : Nat) : Rat) * (2 / 5)
          let distance : Rat := 70 + rand k * 30
          let targetX := childNode.x + cosPi angle * distance
          let targetY := childNode.y + sinPi angle * distance
          let node : BubbleNode :=
            { id := "test-" ++ toString t.id
              type := .test
              name := t.name
              x := targetX
              y := targetY
              radius := 15
              color := bmTestColor t
              data := .test t
              vx := some ((rand (k + 1) - 0.5) * 0.2)
              vy := some ((rand (k + 2) - 0.5) * 0.2)
              targetX := some targetX
              targetY := some targetY
              parentId := some childNode.id }
          let line : TraceLine :=
            { lineFrom := "child-" ++ toString t.child_requirement_id
              lineTo := "test-" ++ toString t.id
              color := "#9ca3af" }
          genTestNodes cosPi sinPi rand (nodes ++ [node]) (lines ++ [line])
            (k + 3) (index + 1) rest
      | none => genTestNodes cosPi sinPi rand nodes lines k (index + 1) rest

/-- generateBubbles of BubbleMap.tsx: the legacy canvas topology build.
Filters the entities (parent by name substring, child by surviving parent,
test by status string and surviving child), then pushes parent, child and
test bubbles in order, threading the Math.random stream through the loops. -/
def generateBubbles (cosPi sinPi : Rat → Rat) (rand : Nat → Rat)
    (parentRequirements : List ParentRequirement)
    (childRequirements : List ChildRequirement) (testRuns : List TestRun)
    (filters : BMFilters) : List BubbleNode × List TraceLine :=
  let fp := parentRequirements.filter fun p =>
    filters.parentFilter == "" || strIncludes p.name filters.parentFilter
  let fc := childRequirements.filter fun c =>
    fp.any fun p => p.id == c.parent_requirement_id
  let ft := testRuns.filter fun t =>
    (filters.statusFilter == "" || statusStr t.status == filters.statusFilter) &&
    fc.any fun c => c.id == t.child_requirement_id
  let (parentNodes, k1) := genParentNodes rand 0 0 fp
  let (nodes2, lines2, k2) := genChildNodes cosPi sinPi rand parentNodes [] k1 0 fc
  let (nodes3, lines3, _) := genTestNodes cosPi sinPi rand nodes2 lines2 k2 0 ft
  (nodes3, lines3)

/-- Camera of BubbleMap.tsx: screen = world * zoom + offset. -/
structure Camera where
  x : Rat
  y : Rat
  zoom : Rat
deriving DecidableEq, Repr

/-- screenToWorld of BubbleMap.tsx with canvas-relative screen coordinates
(the source subtracts rect.left and rect.top from client coordinates). -/
def screenToWorld (c : Camera) (sx sy : Rat) : Rat × Rat :=
  ((sx - c.x) / c.zoom, (sy - c.y) / c.zoom)

/-- worldToScreen of BubbleMap.tsx. -/
def worldToScreen (c : Camera) (wx wy : Rat) : Rat × Rat :=
  (wx * c.zoom + c.x, wy * c.zoom + c.y)

/-- The camera update of handleWheel in BubbleMap.tsx: pick the zoom factor
from the wheel direction, clamp the new zoom to the interval from 0.1 to 3,
and recompute the offset so the world point under the mouse stays put. -/
def handleWheel (camera : Camera) (mouseX mouseY deltaY : Rat) : Camera :=
  let zoomFactor : Rat := if 0 < deltaY then 0.9 else 1.1
  let newZoom := max 0.1 (min 3 (camera.zoom * zoomFactor))
  { x := mouseX - (mouseX - camera.x) * (newZoom / camera.zoom)
    y := mouseY - (mouseY - camera.y) * (newZoom / camera.zoom)
    zoom := newZoom }

/-- A finite sequence of wheel events (mouseX, mouseY, deltaY) applied in
order to a camera. -/
def wheelEvents (c : Camera) (events : List (Rat × Rat × Rat)) : Camera :=
  events.foldl (fun cam e => handleWheel cam e.1 e.2.1 e.2.2) c

/-- Scenario data: two parents. -/
def scenarioParents : List ParentRequirement :=
  [{ id := 1, name := "P1" }, { id := 2, name := "P2" }]

/-- Scenario data: two children per parent. -/
def scenarioChildren : List ChildRequirement :=
  [{ id := 11, parent_requirement_id := 1, name := "C11" },
   { id := 12, parent_requirement_id := 1, name := "C12" },
   { id := 21, parent_requirement_id := 2, name := "C21" },
   { id := 22, parent_requirement_id := 2, name := "C22" }]

/-- Scenario data: two tests per child, exactly one of them failed. -/
def scenarioTests : List TestRun :=
  [{ id := 111, child_requirement_id := 11, name := "T111", status := .failed },
   { id := 112, child_requirement_id := 11, name := "T112", status := .passed },
   { id := 121, child_requirement_id := 12, name := "T121", status := .failed },
   { id := 122, child_requirement_id := 12, name := "T122", status := .passed },
   { id := 211, child_requirement_id := 21, name := "T211", status := .failed },
   { id := 212, child_requirement_id := 21, name := "T212", status := .passed },
   { id := 221, child_requirement_id := 22, name := "T221", status := .failed },
   { id := 222, child_requirement_id := 22, name := "T222", status := .passed }]

/-- Scenario filter: only the failed status selected. -/
def scenarioFilters : Filters :=
  { parentFilter := [], childFilter := [], statusFilter := [.failed] }

/-- Two children of parent 1, used to exercise the cascading toggle. -/
def cxChildren : List ChildRequirement :=
  [{ id := 10, parent_requirement_id := 1, name := "c1" },
   { id := 11, parent_requirement_id := 1, name := "c2" }]

/-- A filter state in which child 10 is selected independently, before its
parent is ever selected. -/
def cxF0 : Filters := { parentFilter := [], childFilter := [10], statusFilter := [] }

/-- A concrete model of cos applied to a rational coefficient of pi; it
agrees with the real cosine at coefficient 0 (cos 0 = 1), the only
coefficient reached in the counterexample run. -/
def cosPiModel : Rat → Rat := fun c => if c = 0 then 1 else 0

/-- A concrete model of sin applied to a rational coefficient of pi; it
agrees with the real sine at coefficient 0 (sin 0 = 0). -/
def sinPiModel : Rat → Rat := fun c => if c = 0 then 0 else 1

/-- One parent, for the randomness counterexample. -/
def c4Parents : List ParentRequirement := [{ id := 1, name := "A" }]

/-- One child of that parent, for the randomness counterexample. -/
def c4Children : List ChildRequirement :=
  [{ id := 10, parent_requirement_id := 1, name := "B" }]

/-- Witness data: one parent. -/
def wParents : List ParentRequirement := [{ id := 1, name := "A" }]

/-- Witness data: one child of the parent. -/
def wChildren : List ChildRequirement :=
  [{ id := 10, parent_requirement_id := 1, name := "B" }]

/-- Witness data: one passed test of the child. -/
def wTests : List TestRun :=
  [{ id := 100, child_requirement_id := 10, name := "T", status := .passed }]

/-- Witness filter: nothing restricted. -/
def wFilters : Filters := { parentFilter := [], childFilter := [], statusFilter := [] }

/-- The witness topology build on an 800 by 600 viewport. -/
def wResult : ProcessResult := processData wParents wChildren wTests wFilters 800 600

/-! ## Structural lemmas about the topology build -/

/-- Every node emitted by the test loop is a test node of some listed test. -/
theorem mem_buildTestNodes (width tSpacing : Rat) :
    ∀ (l : List TestRun) (ti : Nat) (n : D3Node),
      n ∈ buildTestNodes width tSpacing ti l →
      ∃ k t, t ∈ l ∧ n = mkTestNode width tSpacing k t := by
  intro l
  induction l with
  | nil => intro ti n h; simp [buildTestNodes] at h
  | cons t rest ih =>
      intro ti n h
      simp only [buildTestNodes, List.mem_cons] at h
      rcases h with h | h
      · exact ⟨ti, t, by simp, h⟩
      · obtain ⟨k, t2, ht2, hn⟩ := ih (ti + 1) n h
        exact ⟨k, t2, by simp [ht2], hn⟩

/-- Every listed test contributes a test node to the test loop output. -/
theorem testNode_mem_buildTestNodes (width tSpacing : Rat) :
    ∀ (l : List TestRun) (ti : Nat) (t : TestRun), t ∈ l →
      ∃ k, mkTestNode width tSpacing k t ∈ buildTestNodes width tSpacing ti l := by
  intro l
  induction l with
  | nil => intro ti t h; simp at h
  | cons hd rest ih =>
      intro ti t h
      rcases List.mem_cons.1 h with h | h
      · subst h; exact ⟨ti, by simp [buildTestNodes]⟩
      · obtain ⟨k, hk⟩ := ih (ti + 1) t h
        exact ⟨k, by simp [buildTestNodes, hk]⟩

/-- Every node emitted by the child-group loop is a test node of a listed
test or the child node of a listed child group. -/
theorem mem_buildChildGroups (width tSpacing cSpacing : Rat) :
    ∀ (cgs : List ChildGroup) (ci ti : Nat) (n : D3Node),
      n ∈ buildChildGroups width tSpacing cSpacing ci ti cgs →
      (∃ k t cg, cg ∈ cgs ∧ t ∈ cg.tests ∧ n = mkTestNode width tSpacing k t) ∨
      (∃ y cg, cg ∈ cgs ∧ n = mkChildNode width y cg.child) := by
  intro cgs
  induction cgs with
  | nil => intro ci ti n h; simp [buildChildGroups] at h
  | cons cg rest ih =>
      intro ci ti n h
      simp only [buildChildGroups, List.append_assoc, List.mem_append,
        List.mem_singleton] at h
      rcases h with h | h | h
      · obtain ⟨k, t, ht, hn⟩ := mem_buildTestNodes width tSpacing cg.tests ti n h
        exact Or.inl ⟨k, t, cg, by simp, ht, hn⟩
      · exact Or.inr ⟨childY tSpacing cSpacing ci ti cg, cg, by simp, h⟩
      · rcases ih (ci + 1) (ti + cg.tests.length) n h with ⟨k, t, cg2, hcg, ht, hn⟩ | ⟨y, cg2, hcg, hn⟩
        · exact Or.inl ⟨k, t, cg2, by simp [hcg], ht, hn⟩
        · exact Or.inr ⟨y, cg2, by simp [hcg], hn⟩

/-- Every listed child group contributes its child node to the loop output. -/
theorem childNode_mem_buildChildGroups (width tSpacing cSpacing : Rat) :
    ∀ (cgs : List ChildGroup) (ci ti : Nat) (cg : ChildGroup), cg ∈ cgs →
      ∃ y, mkChildNode width y cg.child ∈
        buildChildGroups width tSpacing cSpacing ci ti cgs := by
  intro cgs
  induction cgs with
  | nil => intro ci ti cg h; simp at h
  | cons hd rest ih =>
      intro ci ti cg h
      rcases List.mem_cons.1 h with h | h
      · subst h
        exact ⟨childY tSpacing cSpacing ci ti cg, by simp [buildChildGroups]⟩
      · obtain ⟨y, hy⟩ := ih (ci + 1) (ti + hd.tests.length) cg h
        exact ⟨y, by simp [buildChildGroups, hy]⟩

/-- Every test of a listed child group contributes its test node. -/
theorem testNode_mem_buildChildGroups (width tSpacing cSpacing : Rat) :
    ∀ (cgs : List ChildGroup) (ci ti : Nat) (cg : ChildGroup) (t : TestRun),
      cg ∈ cgs → t ∈ cg.tests →
      ∃ k, mkTestNode width tSpacing k t ∈
        buildChildGroups width tSpacing cSpacing ci ti cgs := by
  intro cgs
  induction cgs with
  | nil => intro ci ti cg t h; simp at h
  | cons hd rest ih =>
      intro ci ti cg t h ht
      rcases List.mem_cons.1 h with h | h
      · subst h
        obtain ⟨k, hk⟩ := testNode_mem_buildTestNodes width tSpacing cg.tests ti t ht
        exact ⟨k, by simp [buildChildGroups, hk]⟩
      · obtain ⟨k, hk⟩ := ih (ci + 1) (ti + hd.tests.length) cg t h ht
        exact ⟨k, by simp [buildChildGroups, hk]⟩

/-- Every node emitted by the group loop is a test, child or parent node of
a listed group. -/
theorem mem_buildGroups (width height tSpacing cSpacing : Rat) (np : Nat) :
    ∀ (groups : List PCTGroup) (gi ci ti : Nat) (n : D3Node),
      n ∈ buildGroups width height tSpacing cSpacing np gi ci ti groups →
      (∃ k t g cg, g ∈ groups ∧ cg ∈ g.children ∧ t ∈ cg.tests ∧
        n = mkTestNode width tSpacing k t) ∨
      (∃ y g cg, g ∈ groups ∧ cg ∈ g.children ∧ n = mkChildNode width y cg.child) ∨
      (∃ y g, g ∈ groups ∧ n = mkParentNode width y g.parent) := by
  intro groups
  induction groups with
  | nil => intro gi ci ti n h; simp [buildGroups] at h
  | cons g rest ih =>
      intro gi ci ti n h
      simp only [buildGroups, List.append_assoc, List.mem_append,
        List.mem_singleton] at h
      rcases h with h | h | h
      · rcases mem_buildChildGroups width tSpacing cSpacing g.children ci ti n h with
          ⟨k, t, cg, hcg, ht, hn⟩ | ⟨y, cg, hcg, hn⟩
        · exact Or.inl ⟨k, t, g, cg, by simp, hcg, ht, hn⟩
        · exact Or.inr (Or.inl ⟨y, g, cg, by simp, hcg, hn⟩)
      · exact Or.inr (Or.inr
          ⟨parentY height tSpacing np gi ti g, g, by simp, h⟩)
      · rcases ih (gi + 1) (ci + g.children.length) (ti + groupTestCount g) n h with
          ⟨k, t, g2, cg, hg, hcg, ht, hn⟩ | ⟨y, g2, cg, hg, hcg, hn⟩ | ⟨y, g2, hg, hn⟩
        · exact Or.inl ⟨k, t, g2, cg, by simp [hg], hcg, ht, hn⟩
        · exact Or.inr (Or.inl ⟨y, g2, cg, by simp [hg], hcg, hn⟩)
        · exact Or.inr (Or.inr ⟨y, g2, by simp [hg], hn⟩)

/-- Every listed group contributes its parent node to the group loop. -/
theorem parentNode_mem_buildGroups (width height tSpacing cSpacing : Rat) (np : Nat) :
    ∀ (groups : List PCTGroup) (gi ci ti : Nat) (g : PCTGroup), g ∈ groups →
      ∃ y, mkParentNode width y g.parent ∈
        buildGroups width height tSpacing cSpacing np gi ci ti groups := by
  intro groups
  induction groups with
  | nil => intro gi ci ti g h; simp at h
  | cons hd rest ih =>
      intro gi ci ti g h
      rcases List.mem_cons.1 h with h | h
      · subst h
        exact ⟨parentY height tSpacing np gi ti g, by simp [buildGroups]⟩
      · obtain ⟨y, hy⟩ :=
          ih (gi + 1) (ci + hd.children.length) (ti + groupTestCount hd) g h
        exact ⟨y, by simp [buildGroups, hy]⟩

/-- Every child group of a listed group contributes its child node. -/
theorem childNode_mem_buildGroups (width height tSpacing cSpacing : Rat) (np : Nat) :
    ∀ (groups : List PCTGroup) (gi ci ti : Nat) (g : PCTGroup) (cg : ChildGroup),
      g ∈ groups → cg ∈ g.children →
      ∃ y, mkChildNode width y cg.child ∈
        buildGroups width height tSpacing cSpacing np gi ci ti groups := by
  intro groups
  induction groups with
  | nil => intro gi ci ti g cg h; simp at h
  | cons hd rest ih =>
      intro gi ci ti g cg h hcg
      rcases List.mem_cons.1 h with h | h
      · subst h
        obtain ⟨y, hy⟩ :=
          childNode_mem_buildChildGroups width tSpacing cSpacing g.children ci ti cg hcg
        exact ⟨y, by simp [buildGroups, hy]⟩
      · obtain ⟨y, hy⟩ :=
          ih (gi + 1) (ci + hd.children.length) (ti + groupTestCount hd) g cg h hcg
        exact ⟨y, by simp [buildGroups, hy]⟩

/-- Every test of a child group of a listed group contributes its node. -/
theorem testNode_mem_buildGroups (width height tSpacing cSpacing : Rat) (np : Nat) :
    ∀ (groups : List PCTGroup) (gi ci ti : Nat) (g : PCTGroup) (cg : ChildGroup)
      (t : TestRun), g ∈ groups → cg ∈ g.children → t ∈ cg.tests →
      ∃ k, mkTestNode width tSpacing k t ∈
        buildGroups width height tSpacing cSpacing np gi ci ti groups := by
  intro groups
  induction groups with
  | nil => intro gi ci ti g cg t h; simp at h
  | cons hd rest ih =>
      intro gi ci ti g cg t h hcg ht
      rcases List.mem_cons.1 h with h | h
      · subst h
        obtain ⟨k, hk⟩ := testNode_mem_buildChildGroups width tSpacing cSpacing
          g.children ci ti cg t hcg ht
        exact ⟨k, by simp [buildGroups, hk]⟩
      · obtain ⟨k, hk⟩ :=
          ih (gi + 1) (ci + hd.children.length) (ti + groupTestCount hd) g cg t h hcg ht
        exact ⟨k, by simp [buildGroups, hk]⟩

/-- A filtered parent is one of the input parents. -/
theorem mem_filteredParents_sub {ps : List ParentRequirement} {f : Filters}
    {p : ParentRequirement} (h : p ∈ filteredParents ps f) : p ∈ ps :=
  (List.mem_filter.1 h).1

/-- A filtered child is an input child whose parent survived the parent
filter stage. -/
theorem mem_filteredChildren_elim {ps : List ParentRequirement}
    {cs : List ChildRequirement} {f : Filters} {c : ChildRequirement}
    (h : c ∈ filteredChildren ps cs f) :
    c ∈ cs ∧ ∃ p ∈ filteredParents ps f, p.id = c.parent_requirement_id := by
  have h1 := List.mem_filter.1 h
  refine ⟨h1.1, ?_⟩
  have h2 := h1.2
  simp only [Bool.and_eq_true, List.any_eq_true, beq_iff_eq] at h2
  obtain ⟨-, p, hp, hpid⟩ := h2
  exact ⟨p, hp, hpid⟩

/-- A filtered test is an input test whose child survived the child filter
stage. -/
theorem mem_filteredTests_elim {ps : List ParentRequirement}
    {cs : List ChildRequirement} {ts : List TestRun} {f : Filters} {t : TestRun}
    (h : t ∈ filteredTests ps cs ts f) :
    t ∈ ts ∧ ∃ c ∈ filteredChildren ps cs f, c.id = t.child_requirement_id := by
  have h1 := List.mem_filter.1 h
  refine ⟨h1.1, ?_⟩
  have h2 := h1.2
  simp only [Bool.and_eq_true, List.any_eq_true, beq_iff_eq] at h2
  obtain ⟨-, c, hc, hcid⟩ := h2
  exact ⟨c, hc, hcid⟩

/-- Each filtered parent has its group in parentChildTestGroups. -/
theorem groupOf_mem_groups {fp : List ParentRequirement}
    {fc : List ChildRequirement} {ft : List TestRun} {p : ParentRequirement}
    (h : p ∈ fp) : groupOf fc ft p ∈ parentChildTestGroups fp fc ft :=
  List.mem_map.2 ⟨p, h, rfl⟩

/-- Each group in parentChildTestGroups is the group of a filtered parent. -/
theorem mem_groups_elim {fp : List ParentRequirement} {fc : List ChildRequirement}
    {ft : List TestRun} {g : PCTGroup} (h : g ∈ parentChildTestGroups fp fc ft) :
    ∃ p ∈ fp, g = groupOf fc ft p := by
  obtain ⟨p, hp, hg⟩ := List.mem_map.1 h
  exact ⟨p, hp, hg.symm⟩

/-- A child of the filtered list whose parent id matches the group parent
appears as a child group of that group. -/
theorem childGroupOf_mem_groupOf {fc : List ChildRequirement} {ft : List TestRun}
    {p : ParentRequirement} {c : ChildRequirement} (hc : c ∈ fc)
    (hid : c.parent_requirement_id = p.id) :
    childGroupOf ft c ∈ (groupOf fc ft p).children := by
  refine List.mem_map.2 ⟨c, ?_, rfl⟩
  exact List.mem_filter.2 ⟨hc, beq_iff_eq.2 hid⟩

/-- The child of any child group of a group of parentChildTestGroups is a
filtered child belonging to the group parent. -/
theorem children_elim {fp : List ParentRequirement} {fc : List ChildRequirement}
    {ft : List TestRun} {g : PCTGroup} {cg : ChildGroup}
    (hg : g ∈ parentChildTestGroups fp fc ft) (hcg : cg ∈ g.children) :
    cg.child ∈ fc ∧ cg.child.parent_requirement_id = g.parent.id ∧
      cg = childGroupOf ft cg.child := by
  obtain ⟨p, hp, rfl⟩ := mem_groups_elim hg
  obtain ⟨c, hcmem, hceq⟩ := List.mem_map.1 hcg
  have hcf := List.mem_filter.1 hcmem
  subst hceq
  exact ⟨hcf.1, beq_iff_eq.1 hcf.2, rfl⟩

/-- A test of a child group of parentChildTestGroups is a filtered test
belonging to the child of that child group. -/
theorem tests_elim {fp : List ParentRequirement} {fc : List ChildRequirement}
    {ft : List TestRun} {g : PCTGroup} {cg : ChildGroup} {t : TestRun}
    (hg : g ∈ parentChildTestGroups fp fc ft) (hcg : cg ∈ g.children)
    (ht : t ∈ cg.tests) :
    t ∈ ft ∧ t.child_requirement_id = cg.child.id := by
  obtain ⟨_, _, hcgeq⟩ := children_elim hg hcg
  rw [hcgeq] at ht
  have h := List.mem_filter.1 ht
  exact ⟨h.1, beq_iff_eq.1 h.2⟩

/-- A test of the filtered list whose child id matches belongs to the child
group of that child. -/
theorem test_mem_childGroupOf {ft : List TestRun} {c : ChildRequirement}
    {t : TestRun} (ht : t ∈ ft) (hid : t.child_requirement_id = c.id) :
    t ∈ (childGroupOf ft c).tests :=
  List.mem_filter.2 ⟨ht, beq_iff_eq.2 hid⟩

/-- The nodes of processData are exactly the group loop output over the
grouped filtered entities. -/
theorem processData_nodes (ps : List ParentRequirement) (cs : List ChildRequirement)
    (ts : List TestRun) (f : Filters) (w h : Rat) :
    (processData ps cs ts f w h).nodes =
      buildGroups w h (testSpacing h (filteredTests ps cs ts f).length)
        (childSpacing h (filteredChildren ps cs f).length)
        (filteredParents ps f).length 0 0 0
        (parentChildTestGroups (filteredParents ps f)
          (filteredChildren ps cs f) (filteredTests ps cs ts f)) := rfl

/-- The links of processData are one parent-child link per filtered child
followed by one child-test link per filtered test. -/
theorem processData_links (ps : List ParentRequirement) (cs : List ChildRequirement)
    (ts : List TestRun) (f : Filters) (w h : Rat) :
    (processData ps cs ts f w h).links =
      ((filteredChildren ps cs f).map fun c =>
        { source := "parent-" ++ toString c.parent_requirement_id
          target := "child-" ++ toString c.id
          color := teColors.gray : D3Link }) ++
      ((filteredTests ps cs ts f).map fun t =>
        { source := "child-" ++ toString t.child_requirement_id
          target := "test-" ++ toString t.id
          color := teColors.gray : D3Link }) := rfl

/-- The y and x coordinates of the node at position k of the test loop
output: slot (starting index + k + 1) times the spacing, at 85 percent of
the viewport width. -/
theorem buildTestNodes_get? (width tSpacing : Rat) :
    ∀ (l : List TestRun) (ti k : Nat) (nd : D3Node),
      (buildTestNodes width tSpacing ti l).get? k = some nd →
      nd.y = (((ti + k : Nat) : Rat) + 1) * tSpacing ∧ nd.x = width * 0.85 := by
  intro l
  induction l with
  | nil => intro ti k nd h; simp [buildTestNodes] at h
  | cons t rest ih =>
      intro ti k nd h
      match k with
      | 0 =>
          simp only [buildTestNodes, List.get?] at h
          cases h
          simp [mkTestNode]
      | k + 1 =>
          simp only [buildTestNodes, List.get?] at h
          have := ih (ti + 1) k nd h
          refine ⟨?_, this.2⟩
          rw [this.1]
          push_cast
          ring

/-- The test loop output has one node per test. -/
theorem buildTestNodes_length (width tSpacing : Rat) :
    ∀ (l : List TestRun) (ti : Nat),
      (buildTestNodes width tSpacing ti l).length = l.length := by
  intro l
  induction l with
  | nil => intro ti; rfl
  | cons t rest ih => intro ti; simp [buildTestNodes, ih]

/-- The test loop distributes over list append, shifting the index. -/
theorem buildTestNodes_append (width tSpacing : Rat) :
    ∀ (l1 l2 : List TestRun) (ti : Nat),
      buildTestNodes width tSpacing ti (l1 ++ l2) =
        buildTestNodes width tSpacing ti l1 ++
          buildTestNodes width tSpacing (ti + l1.length) l2 := by
  intro l1
  induction l1 with
  | nil => intro l2 ti; simp [buildTestNodes]
  | cons t rest ih =>
      intro l2 ti
      simp only [List.cons_append, buildTestNodes, List.length_cons, List.append_eq]
      rw [ih]
      have harith : ti + (rest.length + 1) = ti + 1 + rest.length := by omega
      rw [harith]

/-- Keeping only test nodes of the test loop output keeps everything. -/
theorem filter_buildTestNodes (width tSpacing : Rat) :
    ∀ (l : List TestRun) (ti : Nat),
      (buildTestNodes width tSpacing ti l).filter (fun n => n.type == .test) =
        buildTestNodes width tSpacing ti l := by
  intro l
  induction l with
  | nil => intro ti; rfl
  | cons t rest ih =>
      intro ti
      simp [buildTestNodes, List.filter_cons, mkTestNode, ih]

/-- groupTestCount is the number of tests in the flattened children. -/
theorem groupTestCount_eq (g : PCTGroup) :
    groupTestCount g = (g.children.flatMap fun cg => cg.tests).length := by
  have key : ∀ (l : List ChildGroup) (a : Nat),
      l.foldl (fun sum c => sum + c.tests.length) a =
        a + (l.flatMap fun cg => cg.tests).length := by
    intro l
    induction l with
    | nil => intro a; simp
    | cons cg rest ih => intro a; simp [List.flatMap_cons, ih]; omega
  simpa using key g.children 0

/-- Keeping only test nodes of the child-group loop output yields the test
loop over the flattened tests of the child groups. -/
theorem filter_buildChildGroups (width tSpacing cSpacing : Rat) :
    ∀ (cgs : List ChildGroup) (ci ti : Nat),
      (buildChildGroups width tSpacing cSpacing ci ti cgs).filter
          (fun n => n.type == .test) =
        buildTestNodes width tSpacing ti (cgs.flatMap fun cg => cg.tests) := by
  intro cgs
  induction cgs with
  | nil => intro ci ti; rfl
  | cons cg rest ih =>
      intro ci ti
      simp only [buildChildGroups, List.flatMap_cons, List.filter_append,
        filter_buildTestNodes, ih, buildTestNodes_append]
      have hchild : (List.filter (fun n => n.type == NodeType.test)
          [mkChildNode width (childY tSpacing cSpacing ci ti cg) cg.child]) = [] := by
        simp [List.filter_cons, mkChildNode]
      rw [hchild]
      simp

/-- Keeping only test nodes of the group loop output yields the test loop
over the flattened tests of all groups. -/
theorem filter_buildGroups (width height tSpacing cSpacing : Rat) (np : Nat) :
    ∀ (groups : List PCTGroup) (gi ci ti : Nat),
      (buildGroups width height tSpacing cSpacing np gi ci ti groups).filter
          (fun n => n.type == .test) =
        buildTestNodes width tSpacing ti
          (groups.flatMap fun g => g.children.flatMap fun cg => cg.tests) := by
  intro groups
  induction groups with
  | nil => intro gi ci ti; rfl
  | cons g rest ih =>
      intro gi ci ti
      simp only [buildGroups, List.flatMap_cons, List.filter_append,
        filter_buildChildGroups, ih, buildTestNodes_append]
      have hparent : (List.filter (fun n => n.type == NodeType.test)
          [mkParentNode width
            (parentY height tSpacing np gi ti g) g.parent]) = [] := by
        simp [List.filter_cons, mkParentNode]
      rw [hparent, groupTestCount_eq]
      simp

/-! ## Claim theorems -/

/-- C5. Zoom-toward-pointer invariant: for every camera with nonzero zoom,
every screen point and every wheel step, the world point that was under the
screen point before the handleWheel update maps back to the same screen
point afterwards (exactly, in rational arithmetic). -/
theorem zoom_toward_pointer (c : Camera) (sx sy deltaY : Rat)
    (hz : c.zoom ≠ 0) :
    worldToScreen (handleWheel c sx sy deltaY) (screenToWorld c sx sy).1
      (screenToWorld c sx sy).2 = (sx, sy) := by
  simp only [worldToScreen, screenToWorld, handleWheel, Prod.mk.injEq]
  constructor
  · field_simp
  · field_simp

/-- Witness for zoom_toward_pointer at a concrete camera and pointer. -/
theorem zoom_toward_pointer_witness :
    worldToScreen (handleWheel { x := 5, y := 7, zoom := 2 } 10 20 1)
      (screenToWorld { x := 5, y := 7, zoom := 2 } 10 20).1
      (screenToWorld { x := 5, y := 7, zoom := 2 } 10 20).2 = (10, 20) :=
  zoom_toward_pointer { x := 5, y := 7, zoom := 2 } 10 20 1 (by norm_num)

/-- One wheel step always lands the zoom inside the clamp interval. -/
theorem handleWheel_zoom_bounds (cam : Camera) (mx my dy : Rat) :
    0.1 ≤ (handleWheel cam mx my dy).zoom ∧ (handleWheel cam mx my dy).zoom ≤ 3 := by
  constructor
  · exact le_max_left _ _
  · exact max_le (by norm_num) (min_le_left _ _)

/-- C6. Zoom clamping: starting from a camera whose zoom lies in the clamp
interval from 0.1 to 3, any finite sequence of wheel events leaves the zoom
inside the interval; since every prefix of a sequence is itself a sequence,
the zoom is inside the interval after each event. -/
theorem zoom_clamping (c : Camera) (h1 : 0.1 ≤ c.zoom) (h2 : c.zoom ≤ 3)
    (events : List (Rat × Rat × Rat)) :
    0.1 ≤ (wheelEvents c events).zoom ∧ (wheelEvents c events).zoom ≤ 3 := by
  induction events generalizing c with
  | nil => exact ⟨h1, h2⟩
  | cons e rest ih =>
      have hstep := handleWheel_zoom_bounds c e.1 e.2.1 e.2.2
      exact ih (handleWheel c e.1 e.2.1 e.2.2) hstep.1 hstep.2

/-- Witness for zoom_clamping at a concrete camera and event list. -/
theorem zoom_clamping_witness :
    0.1 ≤ (wheelEvents { x := 0, y := 0, zoom := 1 } [(0, 0, 1), (0, 0, -1)]).zoom ∧
    (wheelEvents { x := 0, y := 0, zoom := 1 } [(0, 0, 1), (0, 0, -1)]).zoom ≤ 3 :=
  zoom_clamping { x := 0, y := 0, zoom := 1 } (by norm_num) (by norm_num)
    [(0, 0, 1), (0, 0, -1)]

/-- C7. An empty selection list on any dimension imposes no restriction on
that dimension: empty parentFilter keeps every parent; empty childFilter
keeps exactly the children whose parent survived; empty statusFilter keeps
exactly the tests whose child survived. -/
theorem empty_filter_no_restriction (ps : List ParentRequirement)
    (cs : List ChildRequirement) (ts : List TestRun) (f : Filters) :
    (f.parentFilter = [] → filteredParents ps f = ps) ∧
    (f.childFilter = [] → filteredChildren ps cs f =
      cs.filter fun c => (filteredParents ps f).any fun p =>
        p.id == c.parent_requirement_id) ∧
    (f.statusFilter = [] → filteredTests ps cs ts f =
      ts.filter fun t => (filteredChildren ps cs f).any fun c =>
        c.id == t.child_requirement_id) := by
  refine ⟨fun hp => ?_, fun hc => ?_, fun hs => ?_⟩
  · simp [filteredParents, hp]
  · simp [filteredChildren, hc]
  · simp [filteredTests, hs]

/-- Witness for empty_filter_no_restriction at concrete data. -/
theorem empty_filter_no_restriction_witness :
    filteredParents wParents wFilters = wParents :=
  (empty_filter_no_restriction wParents wChildren wTests wFilters).1 rfl

/-- C1 counterexample.  The claim says deselecting parent 1 leaves child 10
intact, because 10 was explicitly selected (present in childFilter) before
parent 1 was selected.  In the code, toggling parent 1 off removes every
child of parent 1 from childFilter, including child 10. -/
theorem cascading_selection_counterexample :
    10 ∈ cxF0.childFilter ∧
    cxF0.parentFilter = [] ∧
    (handleRequirementToggle cxChildren
        (handleRequirementToggle cxChildren cxF0 1 .parent) 1 .parent).childFilter = [] ∧
    10 ∉ (handleRequirementToggle cxChildren
        (handleRequirementToggle cxChildren cxF0 1 .parent) 1 .parent).childFilter := by
  decide

/-- C1 amended.  Toggling parent P on adds P to parentFilter and adds
exactly the ids of children of P not already in childFilter; toggling P off
removes P from parentFilter and removes ALL ids of children of P from
childFilter, including ids that were selected independently before P was
selected.  statusFilter is untouched in both directions. -/
theorem cascading_selection_amended (cs : List ChildRequirement) (f : Filters) (P : Int) :
    (f.parentFilter.contains P = false →
       (handleRequirementToggle cs f P .parent).statusFilter = f.statusFilter ∧
       (∀ q : Int, q ∈ (handleRequirementToggle cs f P .parent).parentFilter ↔
          q ∈ f.parentFilter ∨ q = P) ∧
       (∀ x : Int, x ∈ (handleRequirementToggle cs f P .parent).childFilter ↔
          x ∈ f.childFilter ∨ ∃ c ∈ cs, c.parent_requirement_id = P ∧ c.id = x)) ∧
    (f.parentFilter.contains P = true →
       (handleRequirementToggle cs f P .parent).statusFilter = f.statusFilter ∧
       (∀ q : Int, q ∈ (handleRequirementToggle cs f P .parent).parentFilter ↔
          q ∈ f.parentFilter ∧ q ≠ P) ∧
       (∀ x : Int, x ∈ (handleRequirementToggle cs f P .parent).childFilter ↔
          x ∈ f.childFilter ∧ ¬∃ c ∈ cs, c.parent_requirement_id = P ∧ c.id = x)) := by
  constructor
  · intro hoff
    simp only [handleRequirementToggle, hoff, Bool.false_eq_true, if_false]
    refine ⟨trivial, fun q => ?_, fun x => ?_⟩
    · simp [List.mem_append]
    · simp only [List.mem_append, List.mem_filter, List.mem_map, beq_iff_eq,
        Bool.not_eq_true', List.elem_eq_mem, decide_eq_false_iff_not]
      constructor
      · rintro (h | ⟨⟨c, ⟨hc, hcp⟩, hcid⟩, hnotin⟩)
        · exact Or.inl h
        · exact Or.inr ⟨c, hc, hcp, hcid⟩
      · rintro (h | ⟨c, hc, hcp, hcid⟩)
        · exact Or.inl h
        · by_cases hx : x ∈ f.childFilter
          · exact Or.inl hx
          · exact Or.inr ⟨⟨c, ⟨hc, hcp⟩, hcid⟩, hx⟩
  · intro hon
    simp only [handleRequirementToggle, hon, if_true]
    refine ⟨trivial, fun q => ?_, fun x => ?_⟩
    · simp only [List.mem_filter, bne_iff_ne, ne_eq]
    · simp only [List.mem_filter, List.mem_map, beq_iff_eq,
        Bool.not_eq_true', List.elem_eq_mem, decide_eq_false_iff_not]
      constructor
      · rintro ⟨hx, hncon⟩
        refine ⟨hx, ?_⟩
        rintro ⟨c, hc, hcp, hcid⟩
        exact hncon ⟨c, ⟨hc, hcp⟩, hcid⟩
      · rintro ⟨hx, hnex⟩
        refine ⟨hx, ?_⟩
        rintro ⟨c, ⟨hc, hcp⟩, hcid⟩
        exact hnex ⟨c, hc, hcp, hcid⟩

/-- Witness for cascading_selection_amended at a concrete toggle. -/
theorem cascading_selection_amended_witness :
    cxF0.parentFilter.contains 1 = false ∧
    ((handleRequirementToggle cxChildren cxF0 1 .parent).statusFilter = cxF0.statusFilter ∧
      (∀ q : Int, q ∈ (handleRequirementToggle cxChildren cxF0 1 .parent).parentFilter ↔
        q ∈ cxF0.parentFilter ∨ q = 1) ∧
      (∀ x : Int, x ∈ (handleRequirementToggle cxChildren cxF0 1 .parent).childFilter ↔
        x ∈ cxF0.childFilter ∨ ∃ c ∈ cxChildren, c.parent_requirement_id = 1 ∧ c.id = x)) :=
  ⟨by decide, (cascading_selection_amended cxChildren cxF0 1).1 (by decide)⟩

/-- C2. Hierarchy gating and orphan dropping: in the node set returned by
processData, every node carrying child data has the node of its parent
present, and every node carrying test data has the node of its child
present; a child whose parent id matches no input parent produces no node,
and a test whose child id matches no surviving child produces no node.
processData is a total function, so no error is possible. -/
theorem hierarchy_gating (ps : List ParentRequirement) (cs : List ChildRequirement)
    (ts : List TestRun) (f : Filters) (w h : Rat) :
    (∀ n ∈ (processData ps cs ts f w h).nodes, ∀ c, n.data = .child c →
       ∃ m ∈ (processData ps cs ts f w h).nodes,
         m.type = .parent ∧ m.id = "parent-" ++ toString c.parent_requirement_id) ∧
    (∀ n ∈ (processData ps cs ts f w h).nodes, ∀ t, n.data = .test t →
       ∃ m ∈ (processData ps cs ts f w h).nodes,
         m.type = .child ∧ m.id = "child-" ++ toString t.child_requirement_id) ∧
    (∀ c : ChildRequirement, (∀ p ∈ ps, p.id ≠ c.parent_requirement_id) →
       ∀ n ∈ (processData ps cs ts f w h).nodes, n.data ≠ .child c) ∧
    (∀ t : TestRun, (∀ c ∈ filteredChildren ps cs f, c.id ≠ t.child_requirement_id) →
       ∀ n ∈ (processData ps cs ts f w h).nodes, n.data ≠ .test t) := by
  rw [processData_nodes]
  refine ⟨?_, ?_, ?_, ?_⟩
  · intro n hn c hdata
    rcases mem_buildGroups _ _ _ _ _ _ 0 0 0 n hn with
      ⟨k, t, g, cg, hg, hcg, ht, rfl⟩ | ⟨y, g, cg, hg, hcg, rfl⟩ | ⟨y, g, hg, rfl⟩
    · simp [mkTestNode] at hdata
    · simp only [mkChildNode] at hdata
      cases hdata
      obtain ⟨hcfc, hcp, hcgeq⟩ := children_elim hg hcg
      obtain ⟨y2, hy2⟩ := parentNode_mem_buildGroups w h _ _ _ _ 0 0 0 g hg
      exact ⟨mkParentNode w y2 g.parent, hy2, rfl, by rw [hcp]; rfl⟩
    · simp [mkParentNode] at hdata
  · intro n hn t hdata
    rcases mem_buildGroups _ _ _ _ _ _ 0 0 0 n hn with
      ⟨k, t2, g, cg, hg, hcg, ht, rfl⟩ | ⟨y, g, cg, hg, hcg, rfl⟩ | ⟨y, g, hg, rfl⟩
    · simp only [mkTestNode] at hdata
      cases hdata
      obtain ⟨htf, htc⟩ := tests_elim hg hcg ht
      obtain ⟨y2, hy2⟩ := childNode_mem_buildGroups w h _ _ _ _ 0 0 0 g cg hg hcg
      exact ⟨mkChildNode w y2 cg.child, hy2, rfl, by rw [htc]; rfl⟩
    · simp [mkChildNode] at hdata
    · simp [mkParentNode] at hdata
  · intro c horph n hn hdata
    rcases mem_buildGroups _ _ _ _ _ _ 0 0 0 n hn with
      ⟨k, t, g, cg, hg, hcg, ht, rfl⟩ | ⟨y, g, cg, hg, hcg, rfl⟩ | ⟨y, g, hg, rfl⟩
    · simp [mkTestNode] at hdata
    · simp only [mkChildNode, EntityData.child.injEq] at hdata
      subst hdata
      obtain ⟨hcfc, hcp, -⟩ := children_elim hg hcg
      obtain ⟨-, p, hpfp, hpid⟩ := mem_filteredChildren_elim hcfc
      exact horph p (mem_filteredParents_sub hpfp) hpid
    · simp [mkParentNode] at hdata
  · intro t hnoc n hn hdata
    rcases mem_buildGroups _ _ _ _ _ _ 0 0 0 n hn with
      ⟨k, t2, g, cg, hg, hcg, ht, rfl⟩ | ⟨y, g, cg, hg, hcg, rfl⟩ | ⟨y, g, hg, rfl⟩
    · simp only [mkTestNode, EntityData.test.injEq] at hdata
      subst hdata
      obtain ⟨htf, htc⟩ := tests_elim hg hcg ht
      obtain ⟨hcfc, -, -⟩ := children_elim hg hcg
      exact hnoc cg.child hcfc htc.symm
    · simp [mkChildNode] at hdata
    · simp [mkParentNode] at hdata

/-- Witness for hierarchy_gating: the child node of the witness build has
its parent node present. -/
theorem hierarchy_gating_witness :
    ∃ m ∈ wResult.nodes, m.type = .parent ∧ m.id = "parent-" ++ toString (1 : Int) :=
  (hierarchy_gating wParents wChildren wTests wFilters 800 600).1
    (wResult.nodes.get ⟨1, by decide⟩) (wResult.nodes.get_mem 1 (by decide))
    { id := 10, parent_requirement_id := 1, name := "B" } rfl

/-- C9. Tier pinning at build time: every test node returned by processData
has both coordinates pinned (fx set to the 85 percent column, equal to its
x, and fy equal to its slot y), while every parent and child node has no
pinned position at all. -/
theorem tier_pinning (ps : List ParentRequirement) (cs : List ChildRequirement)
    (ts : List TestRun) (f : Filters) (w h : Rat) :
    ∀ n ∈ (processData ps cs ts f w h).nodes,
      (n.type = .test → n.fx = some (w * 0.85) ∧ n.fx = some n.x ∧ n.fy = some n.y) ∧
      (n.type ≠ .test → n.fx = none ∧ n.fy = none) := by
  rw [processData_nodes]
  intro n hn
  rcases mem_buildGroups _ _ _ _ _ _ 0 0 0 n hn with
    ⟨k, t, g, cg, hg, hcg, ht, rfl⟩ | ⟨y, g, cg, hg, hcg, rfl⟩ | ⟨y, g, hg, rfl⟩
  · exact ⟨fun _ => ⟨rfl, rfl, rfl⟩, fun hne => absurd rfl hne⟩
  · exact ⟨fun hc => by simp [mkChildNode] at hc, fun _ => ⟨rfl, rfl⟩⟩
  · exact ⟨fun hc => by simp [mkParentNode] at hc, fun _ => ⟨rfl, rfl⟩⟩

/-- Witness for tier_pinning: the test node of the witness build is pinned
to its slot. -/
theorem tier_pinning_witness :
    (wResult.nodes.get ⟨0, by decide⟩).fx = some ((800 : Rat) * 0.85) ∧
    (wResult.nodes.get ⟨0, by decide⟩).fx = some (wResult.nodes.get ⟨0, by decide⟩).x ∧
    (wResult.nodes.get ⟨0, by decide⟩).fy = some (wResult.nodes.get ⟨0, by decide⟩).y :=
  ((tier_pinning wParents wChildren wTests wFilters 800 600)
    (wResult.nodes.get ⟨0, by decide⟩) (wResult.nodes.get_mem 0 (by decide))).1 rfl

/-- C10. Link endpoints always resolve: every link of processData has a
source id and a target id carried by some node of the returned node set,
and the number of links is the number of filtered children plus the number
of filtered tests. -/
theorem link_endpoints_resolve (ps : List ParentRequirement)
    (cs : List ChildRequirement) (ts : List TestRun) (f : Filters) (w h : Rat) :
    (∀ l ∈ (processData ps cs ts f w h).links,
       (∃ n ∈ (processData ps cs ts f w h).nodes, n.id = l.source) ∧
       (∃ n ∈ (processData ps cs ts f w h).nodes, n.id = l.target)) ∧
    (processData ps cs ts f w h).links.length =
      (filteredChildren ps cs f).length + (filteredTests ps cs ts f).length := by
  constructor
  · intro l hl
    rw [processData_links] at hl
    rw [processData_nodes]
    rcases List.mem_append.1 hl with hl | hl
    · obtain ⟨c, hc, rfl⟩ := List.mem_map.1 hl
      obtain ⟨-, p, hp, hpid⟩ := mem_filteredChildren_elim hc
      constructor
      · obtain ⟨y, hy⟩ := parentNode_mem_buildGroups w h _ _ _ _ 0 0 0
          (groupOf (filteredChildren ps cs f) (filteredTests ps cs ts f) p)
          (groupOf_mem_groups hp)
        refine ⟨_, hy, ?_⟩
        rw [← hpid]
        rfl
      · have hcg := @childGroupOf_mem_groupOf _ (filteredTests ps cs ts f) _ _ hc hpid.symm
        obtain ⟨y, hy⟩ := childNode_mem_buildGroups w h _ _ _ _ 0 0 0
          (groupOf (filteredChildren ps cs f) (filteredTests ps cs ts f) p)
          (childGroupOf (filteredTests ps cs ts f) c) (groupOf_mem_groups hp) hcg
        exact ⟨_, hy, rfl⟩
    · obtain ⟨t, htf, rfl⟩ := List.mem_map.1 hl
      obtain ⟨-, c, hcf, hcid⟩ := mem_filteredTests_elim htf
      obtain ⟨-, p, hp, hpid⟩ := mem_filteredChildren_elim hcf
      have hgmem := @groupOf_mem_groups _ (filteredChildren ps cs f)
        (filteredTests ps cs ts f) _ hp
      have hcg := @childGroupOf_mem_groupOf _ (filteredTests ps cs ts f) _ _ hcf hpid.symm
      constructor
      · obtain ⟨y, hy⟩ := childNode_mem_buildGroups w h _ _ _ _ 0 0 0 _ _ hgmem hcg
        refine ⟨_, hy, ?_⟩
        rw [← hcid]
        rfl
      · have htmem := test_mem_childGroupOf htf hcid.symm
        obtain ⟨k, hk⟩ := testNode_mem_buildGroups w h _ _ _ _ 0 0 0 _ _ t hgmem hcg htmem
        exact ⟨_, hk, rfl⟩
  · rw [processData_links]
    simp

/-- Witness for link_endpoints_resolve: the target of the parent-child link
of the witness build resolves to a node. -/
theorem link_endpoints_resolve_witness :
    ∃ n ∈ wResult.nodes, n.id = "child-10" :=
  ((link_endpoints_resolve wParents wChildren wTests wFilters 800 600).1
    { source := "parent-1", target := "child-10", color := teColors.gray }
    (by decide)).2

/-- C8. Initial coordinate formula: the vertical test spacing equals
max(2 * 18 + 10, height / (testCount + 1)) with testCount the number of
filtered tests; the k-th test node of the build (in node order) sits at
y = (k + 1) * spacing; and the horizontal bands are 12 percent of the width
for parents, 45 percent for children and 85 percent for tests. -/
theorem initial_coordinate_formula (ps : List ParentRequirement)
    (cs : List ChildRequirement) (ts : List TestRun) (f : Filters) (w h : Rat) :
    testSpacing h (filteredTests ps cs ts f).length =
      max (2 * 18 + 10) (h / ((filteredTests ps cs ts f).length + 1)) ∧
    (∀ (k : Nat) (nd : D3Node),
       ((processData ps cs ts f w h).nodes.filter fun n => n.type == .test).get? k
         = some nd →
       nd.y = ((k : Rat) + 1) * testSpacing h (filteredTests ps cs ts f).length ∧
       nd.x = w * 0.85) ∧
    (∀ nd ∈ (processData ps cs ts f w h).nodes,
       (nd.type = .parent → nd.x = w * 0.12) ∧
       (nd.type = .child → nd.x = w * 0.45) ∧
       (nd.type = .test → nd.x = w * 0.85)) := by
  refine ⟨?_, ?_, ?_⟩
  · norm_num [testSpacing, testRadius, minTestGap]
  · intro k nd hk
    rw [processData_nodes, filter_buildGroups] at hk
    have hyx := buildTestNodes_get? w
      (testSpacing h (filteredTests ps cs ts f).length) _ 0 k nd hk
    simpa using hyx
  · intro nd hnd
    rw [processData_nodes] at hnd
    rcases mem_buildGroups _ _ _ _ _ _ 0 0 0 nd hnd with
      ⟨k, t, g, cg, hg, hcg, ht, rfl⟩ | ⟨y, g, cg, hg, hcg, rfl⟩ | ⟨y, g, hg, rfl⟩
    · exact ⟨fun hc => by simp [mkTestNode] at hc,
        fun hc => by simp [mkTestNode] at hc, fun _ => rfl⟩
    · exact ⟨fun hc => by simp [mkChildNode] at hc, fun _ => rfl,
        fun hc => by simp [mkChildNode] at hc⟩
    · exact ⟨fun _ => rfl, fun hc => by simp [mkParentNode] at hc,
        fun hc => by simp [mkParentNode] at hc⟩

/-- Witness for initial_coordinate_formula: the first test node of the
witness build sits at slot 1 of the spacing, in the 85 percent column. -/
theorem initial_coordinate_formula_witness :
    (wResult.nodes.get ⟨0, by decide⟩).y =
      ((0 : Rat) + 1) *
        testSpacing 600 (filteredTests wParents wChildren wTests wFilters).length ∧
    (wResult.nodes.get ⟨0, by decide⟩).x = 800 * 0.85 :=
  (initial_coordinate_formula wParents wChildren wTests wFilters 800 600).2.1 0
    (wResult.nodes.get ⟨0, by decide⟩) rfl

/-- C3 counterexample.  For the scenario of 2 parents, 2 children each,
2 tests per child with exactly one failed, filtering on failed status does
NOT yield 6 nodes and 4 links: there are 4 failing tests (one per child),
and children are never pruned by test survival, so the build keeps all 4
children and both parents: 10 nodes and 8 links. -/
theorem status_filter_scenario_counterexample :
    ¬((processData scenarioParents scenarioChildren scenarioTests scenarioFilters
        800 600).nodes.length = 6 ∧
      (processData scenarioParents scenarioChildren scenarioTests scenarioFilters
        800 600).links.length = 4) := by decide

/-- C3 amended.  The scenario build yields exactly the 4 failing test
nodes, the 4 children that own them, and those children's 2 parents: 10
nodes and 8 links, with every passing test absent. -/
theorem status_filter_scenario_amended :
    ((processData scenarioParents scenarioChildren scenarioTests scenarioFilters
        800 600).nodes.map fun n => n.id) =
      ["test-111", "child-11", "test-121", "child-12", "parent-1",
       "test-211", "child-21", "test-221", "child-22", "parent-2"] ∧
    ((processData scenarioParents scenarioChildren scenarioTests scenarioFilters
        800 600).links.map fun l => (l.source, l.target)) =
      [("parent-1", "child-11"), ("parent-1", "child-12"),
       ("parent-2", "child-21"), ("parent-2", "child-22"),
       ("child-11", "test-111"), ("child-12", "test-121"),
       ("child-21", "test-211"), ("child-22", "test-221")] ∧
    (processData scenarioParents scenarioChildren scenarioTests scenarioFilters
        800 600).nodes.length = 10 ∧
    (processData scenarioParents scenarioChildren scenarioTests scenarioFilters
        800 600).links.length = 8 ∧
    "test-112" ∉ ((processData scenarioParents scenarioChildren scenarioTests
        scenarioFilters 800 600).nodes.map fun n => n.id) := by decide

/-- C4 counterexample.  The legacy canvas build generateBubbles (cited by
the claim) draws Math.random for the child placement distance, so two
independent runs over identical entity arrays and filter criteria, differing
only in their ambient random streams, produce different initial x
coordinates for the child bubble. -/
theorem deterministic_initial_layout_counterexample :
    ((generateBubbles cosPiModel sinPiModel (fun _ => 0) c4Parents c4Children []
        { parentFilter := "", statusFilter := "" }).1.map fun n => n.x) ≠
    ((generateBubbles cosPiModel sinPiModel (fun _ => (1 : Rat) / 2) c4Parents
        c4Children [] { parentFilter := "", statusFilter := "" }).1.map
          fun n => n.x) := by
  simp only [generateBubbles, c4Parents, c4Children, List.filter_cons, List.filter_nil,
    genParentNodes, genChildNodes, genTestNodes, cosPiModel, sinPiModel,
    List.find?, List.map]
  norm_num

/-- C4 amended.  The D3 topology build processData is a deterministic
function of the entity arrays, the filter criteria and the viewport: it
performs no Math.random call, so two runs in arbitrary ambient random
states return identical node and link lists (in particular identical
initial positions).  The legacy canvas build generateBubbles is not
deterministic (see the counterexample). -/
theorem deterministic_initial_layout_amended (rand1 rand2 : Nat → Rat)
    (ps : List ParentRequirement) (cs : List ChildRequirement)
    (ts : List TestRun) (f : Filters) (w h : Rat) :
    processDataRun rand1 ps cs ts f w h = processDataRun rand2 ps cs ts f w h := rfl
